import Mathlib

/-!
Verification of `telegram/_utils/warnings_transition.py`.

The module is stateless glue code: three helpers that emit deprecation
warnings when an argument or attribute was renamed between Bot API
versions, plus a `functools.partial` instance for the `thumb` →
`thumbnail` rename.

Embedding choices:
* Python values passed as `deprecated_arg` / `new_arg` are modelled by
  the inductive `PyVal` (the `None` singleton, integers, strings), with
  Python truthiness (`pyTruthy`) and Python `==` (`pyEq`).
* The `warn` side channel is modelled by returning the list of emitted
  warning records alongside the result; a raised `ValueError` is an
  `Except.error` carrying the message, paired with the warnings emitted
  before the raise (none, since the code raises before warning).
* Every warning in this module uses the `PTBDeprecationWarning`
  category, recorded in the `category` field of the record.
-/

/-- A Python value, as far as this module observes one: `None`, an
integer (which also covers Python booleans) or a string. -/
inductive PyVal where
  | none
  | vInt (n : Int)
  | vStr (s : String)
deriving DecidableEq, Repr

/-- Python truthiness of a `PyVal`: `None` is falsy, `0` is falsy, the
empty string is falsy, everything else is truthy. -/
def pyTruthy : PyVal → Bool
  | .none => false
  | .vInt n => n != 0
  | .vStr s => s != ""

/-- Python `==` on the modelled values: equal within a constructor,
unequal across constructors. -/
def pyEq : PyVal → PyVal → Bool
  | .none, .none => true
  | .vInt a, .vInt b => a == b
  | .vStr a, .vStr b => a == b
  | _, _ => false

/-- One record sent to the `warn` channel: the message, the warning
category and the `stacklevel` hint. -/
structure Warning where
  message : String
  category : String
  stacklevel : Nat
deriving DecidableEq, Repr

/-- Containment of `needle` in `hay` as a contiguous substring, stated
on the underlying character lists. -/
def strContains (hay needle : String) : Prop :=
  ∃ pre post : List Char, hay.data = pre ++ needle.data ++ post

/-- Message of the `ValueError` raised on a conflict, mirroring the
f-string in `warn_about_deprecated_arg_return_new_arg`. -/
def conflictMsg (deprecated_arg_name new_arg_name bot_api_version : String) : String :=
  "You passed different entities as \x27" ++ deprecated_arg_name ++ "\x27 and \x27"
    ++ new_arg_name ++ "\x27. The parameter \x27" ++ deprecated_arg_name
    ++ "\x27 was renamed to \x27" ++ new_arg_name ++ "\x27 in Bot API "
    ++ bot_api_version ++ ". We recommend using \x27" ++ new_arg_name
    ++ "\x27 instead of \x27" ++ deprecated_arg_name ++ "\x27."

/-- Message of the deprecation warning for a renamed argument, mirroring
the f-string in `warn_about_deprecated_arg_return_new_arg`. -/
def argRenameMsg (deprecated_arg_name new_arg_name bot_api_version : String) : String :=
  "Bot API " ++ bot_api_version ++ " renamed the argument \x27"
    ++ deprecated_arg_name ++ "\x27 to \x27" ++ new_arg_name ++ "\x27."

/-- Message of the deprecation warning for a renamed attribute, mirroring
the f-string in `warn_about_deprecated_attr_in_property`. -/
def attrRenameMsg (deprecated_attr_name new_attr_name bot_api_version : String) : String :=
  "Bot API " ++ bot_api_version ++ " renamed the attribute \x27"
    ++ deprecated_attr_name ++ "\x27 to \x27" ++ new_attr_name ++ "\x27."

/-- Message of the deprecation warning emitted by the decorator of
`warn_about_required_renamed_param_passed_as_kwarg`. -/
def kwargRenameMsg (deprecated new : String) (bot_api_version : String) : String :=
  "Bot API " ++ bot_api_version ++ " renamed the argument \x27" ++ deprecated
    ++ "\x27 to \x27" ++ new ++ "\x27. Make sure you rename it in your code."

/-- Shallow embedding of `warn_about_deprecated_arg_return_new_arg`.
Returns the `ValueError`-or-value outcome together with the list of
warnings that were emitted during the call. -/
def warn_about_deprecated_arg_return_new_arg
    (deprecated_arg new_arg : PyVal)
    (deprecated_arg_name new_arg_name bot_api_version : String)
    (stacklevel : Nat) : Except String PyVal × List Warning :=
  if pyTruthy deprecated_arg && pyTruthy new_arg
      && !(pyEq deprecated_arg new_arg) then
    (Except.error (conflictMsg deprecated_arg_name new_arg_name bot_api_version), [])
  else if pyTruthy deprecated_arg then
    (Except.ok deprecated_arg,
      [⟨argRenameMsg deprecated_arg_name new_arg_name bot_api_version,
        "PTBDeprecationWarning", stacklevel⟩])
  else
    (Except.ok new_arg, [])

/-- Shallow embedding of `warn_about_deprecated_attr_in_property`:
returns `()` and the single warning it emits. -/
def warn_about_deprecated_attr_in_property
    (deprecated_attr_name new_attr_name bot_api_version : String)
    (stacklevel : Nat) : Unit × List Warning :=
  ((), [⟨attrRenameMsg deprecated_attr_name new_attr_name bot_api_version,
    "PTBDeprecationWarning", stacklevel⟩])

/-- Shallow embedding of `warn_about_thumb_return_thumbnail`, the
`functools.partial` with names `thumb` / `thumbnail` and version `6.6`
baked in. -/
def warn_about_thumb_return_thumbnail
    (deprecated_arg new_arg : PyVal) (stacklevel : Nat) :
    Except String PyVal × List Warning :=
  warn_about_deprecated_arg_return_new_arg deprecated_arg new_arg
    "thumb" "thumbnail" "6.6" stacklevel

/-- Shallow embedding of one call to a function wrapped by the decorator
produced by `warn_about_required_renamed_param_passed_as_kwarg`. The
wrapped callable is `func`, taking the positional arguments and the
keyword arguments (an association list keyed by unique names, as a
Python `kwargs` dict); the result is the value `func` returns together
with the warnings the wrapper emitted before delegating. -/
def warn_about_required_renamed_param_passed_as_kwarg
    (deprecated_param_names new_param_names : List String)
    (bot_api_version : String)
    (func : List PyVal → List (String × PyVal) → PyVal)
    (args : List PyVal) (kwargs : List (String × PyVal)) :
    PyVal × List Warning :=
  let warns := (deprecated_param_names.zip new_param_names).filterMap
    (fun p =>
      if kwargs.any (fun kv => kv.1 == p.1) then
        some ⟨kwargRenameMsg p.1 p.2 bot_api_version, "PTBDeprecationWarning", 3⟩
      else none)
  (func args kwargs, warns)

/-! ### Helper lemmas about the message strings -/

/-- Substring containment holds whenever the haystack is literally built
as `a ++ needle ++ b`. -/
theorem strContains_build (a needle b : String) :
    strContains (a ++ needle ++ b) needle :=
  ⟨a.data, b.data, by simp [String.data_append]⟩

/-- conflictMsg contains the deprecated argument name. -/
theorem conflictMsg_contains_deprecated (dn nn v : String) :
    strContains (conflictMsg dn nn v) dn :=
  ⟨"You passed different entities as \x27".data,
   ("\x27 and \x27" ++ nn ++ "\x27. The parameter \x27" ++ dn
     ++ "\x27 was renamed to \x27" ++ nn ++ "\x27 in Bot API " ++ v
     ++ ". We recommend using \x27" ++ nn ++ "\x27 instead of \x27" ++ dn
     ++ "\x27.").data,
   by simp [conflictMsg, String.data_append]⟩

/-- conflictMsg contains the new argument name. -/
theorem conflictMsg_contains_new (dn nn v : String) :
    strContains (conflictMsg dn nn v) nn :=
  ⟨("You passed different entities as \x27" ++ dn ++ "\x27 and \x27").data,
   ("\x27. The parameter \x27" ++ dn ++ "\x27 was renamed to \x27" ++ nn
     ++ "\x27 in Bot API " ++ v ++ ". We recommend using \x27" ++ nn
     ++ "\x27 instead of \x27" ++ dn ++ "\x27.").data,
   by simp [conflictMsg, String.data_append]⟩

/-- conflictMsg contains the Bot API version string. -/
theorem conflictMsg_contains_version (dn nn v : String) :
    strContains (conflictMsg dn nn v) v :=
  ⟨("You passed different entities as \x27" ++ dn ++ "\x27 and \x27" ++ nn
     ++ "\x27. The parameter \x27" ++ dn ++ "\x27 was renamed to \x27" ++ nn
     ++ "\x27 in Bot API ").data,
   (". We recommend using \x27" ++ nn ++ "\x27 instead of \x27" ++ dn
     ++ "\x27.").data,
   by simp [conflictMsg, String.data_append]⟩

/-- argRenameMsg contains the deprecated argument name. -/
theorem argRenameMsg_contains_deprecated (dn nn v : String) :
    strContains (argRenameMsg dn nn v) dn :=
  ⟨("Bot API " ++ v ++ " renamed the argument \x27").data,
   ("\x27 to \x27" ++ nn ++ "\x27.").data,
   by simp [argRenameMsg, String.data_append]⟩

/-- argRenameMsg contains the new argument name. -/
theorem argRenameMsg_contains_new (dn nn v : String) :
    strContains (argRenameMsg dn nn v) nn :=
  ⟨("Bot API " ++ v ++ " renamed the argument \x27" ++ dn ++ "\x27 to \x27").data,
   "\x27.".data,
   by simp [argRenameMsg, String.data_append]⟩

/-- argRenameMsg contains the Bot API version string. -/
theorem argRenameMsg_contains_version (dn nn v : String) :
    strContains (argRenameMsg dn nn v) v :=
  ⟨"Bot API ".data,
   (" renamed the argument \x27" ++ dn ++ "\x27 to \x27" ++ nn ++ "\x27.").data,
   by simp [argRenameMsg, String.data_append]⟩

/-- attrRenameMsg contains the deprecated attribute name. -/
theorem attrRenameMsg_contains_deprecated (dn nn v : String) :
    strContains (attrRenameMsg dn nn v) dn :=
  ⟨("Bot API " ++ v ++ " renamed the attribute \x27").data,
   ("\x27 to \x27" ++ nn ++ "\x27.").data,
   by simp [attrRenameMsg, String.data_append]⟩

/-- attrRenameMsg contains the new attribute name. -/
theorem attrRenameMsg_contains_new (dn nn v : String) :
    strContains (attrRenameMsg dn nn v) nn :=
  ⟨("Bot API " ++ v ++ " renamed the attribute \x27" ++ dn ++ "\x27 to \x27").data,
   "\x27.".data,
   by simp [attrRenameMsg, String.data_append]⟩

/-- attrRenameMsg contains the Bot API version string. -/
theorem attrRenameMsg_contains_version (dn nn v : String) :
    strContains (attrRenameMsg dn nn v) v :=
  ⟨"Bot API ".data,
   (" renamed the attribute \x27" ++ dn ++ "\x27 to \x27" ++ nn ++ "\x27.").data,
   by simp [attrRenameMsg, String.data_append]⟩

/-- pyTruthy evaluates to false on the `None` value. -/
theorem pyTruthy_none : pyTruthy PyVal.none = false := rfl

/-! ### Claim theorems -/

/-- Claim C1: `warn_about_deprecated_arg_return_new_arg` raises the conflict
`ValueError` exactly when both `deprecated_arg` and `new_arg` are truthy
and unequal; the error message names both argument names and the API
version, and in every other case the call returns normally. -/
theorem conflict_error_iff_truthy_unequal
    (d n : PyVal) (dn nn v : String) (sl : Nat) :
    ((warn_about_deprecated_arg_return_new_arg d n dn nn v sl).1
        = Except.error (conflictMsg dn nn v)
      ↔ (pyTruthy d && pyTruthy n && !(pyEq d n)) = true)
    ∧ (strContains (conflictMsg dn nn v) dn
        ∧ strContains (conflictMsg dn nn v) nn
        ∧ strContains (conflictMsg dn nn v) v)
    ∧ ((pyTruthy d && pyTruthy n && !(pyEq d n)) = false →
        ∃ r, (warn_about_deprecated_arg_return_new_arg d n dn nn v sl).1
          = Except.ok r) := by
  refine ⟨?_, ⟨conflictMsg_contains_deprecated dn nn v,
    conflictMsg_contains_new dn nn v, conflictMsg_contains_version dn nn v⟩, ?_⟩
  · cases hd : pyTruthy d <;> cases hn : pyTruthy n <;> cases he : pyEq d n <;>
      simp [warn_about_deprecated_arg_return_new_arg, hd, hn, he]
  · intro h
    cases hd : pyTruthy d <;> cases hn : pyTruthy n <;> cases he : pyEq d n <;>
      simp_all [warn_about_deprecated_arg_return_new_arg]

/-- Witness for C1 at concrete inputs: distinct truthy strings raise the
conflict error, and a falsy new value returns normally. -/
theorem conflict_error_iff_truthy_unequal_witness :
    (warn_about_deprecated_arg_return_new_arg (PyVal.vStr "a.jpg")
        (PyVal.vStr "b.jpg") "thumb" "thumbnail" "6.6" 3).1
      = Except.error (conflictMsg "thumb" "thumbnail" "6.6")
    ∧ ∃ r, (warn_about_deprecated_arg_return_new_arg (PyVal.vStr "a.jpg")
        PyVal.none "thumb" "thumbnail" "6.6" 3).1 = Except.ok r :=
  ⟨((conflict_error_iff_truthy_unequal (PyVal.vStr "a.jpg") (PyVal.vStr "b.jpg")
      "thumb" "thumbnail" "6.6" 3).1).mpr (by decide),
   (conflict_error_iff_truthy_unequal (PyVal.vStr "a.jpg") PyVal.none
      "thumb" "thumbnail" "6.6" 3).2.2 (by decide)⟩

/-- Claim C2: for every truthy `deprecated_arg` with the new argument absent,
the call emits exactly one deprecation notice whose message cites the
old name, the new name and the API version, and returns
`deprecated_arg`. -/
theorem deprecated_only_warns_and_returns_deprecated
    (d : PyVal) (dn nn v : String) (sl : Nat) (h : pyTruthy d = true) :
    warn_about_deprecated_arg_return_new_arg d PyVal.none dn nn v sl
      = (Except.ok d, [⟨argRenameMsg dn nn v, "PTBDeprecationWarning", sl⟩])
    ∧ strContains (argRenameMsg dn nn v) dn
    ∧ strContains (argRenameMsg dn nn v) nn
    ∧ strContains (argRenameMsg dn nn v) v := by
  refine ⟨?_, argRenameMsg_contains_deprecated dn nn v,
    argRenameMsg_contains_new dn nn v, argRenameMsg_contains_version dn nn v⟩
  simp [warn_about_deprecated_arg_return_new_arg, h, pyTruthy_none]

/-- Witness for C2: the scenario of the spec, deprecated `"a.jpg"`,
names `thumb` / `thumbnail`, version `6.6`. -/
theorem deprecated_only_warns_and_returns_deprecated_witness :
    warn_about_deprecated_arg_return_new_arg (PyVal.vStr "a.jpg") PyVal.none
        "thumb" "thumbnail" "6.6" 3
      = (Except.ok (PyVal.vStr "a.jpg"),
         [⟨argRenameMsg "thumb" "thumbnail" "6.6", "PTBDeprecationWarning", 3⟩])
    ∧ strContains (argRenameMsg "thumb" "thumbnail" "6.6") "thumb"
    ∧ strContains (argRenameMsg "thumb" "thumbnail" "6.6") "thumbnail"
    ∧ strContains (argRenameMsg "thumb" "thumbnail" "6.6") "6.6" :=
  deprecated_only_warns_and_returns_deprecated (PyVal.vStr "a.jpg")
    "thumb" "thumbnail" "6.6" 3 (by decide)

/-- Counterexample for C3: for the falsy value `X = ""` (empty string)
with `new = None`, the call returns `None` — a different `PyVal` than
the `X` that was passed — and emits zero notices rather than exactly
one, refuting the claim quantified over all `X` with no truthiness
restriction. -/
theorem old_only_all_values_counterexample :
    warn_about_deprecated_arg_return_new_arg (PyVal.vStr "") PyVal.none
        "thumb" "thumbnail" "6.6" 3
      = (Except.ok PyVal.none, [])
    ∧ (warn_about_deprecated_arg_return_new_arg (PyVal.vStr "") PyVal.none
        "thumb" "thumbnail" "6.6" 3).2.length = 0 := by
  refine ⟨?_, ?_⟩ <;> simp [warn_about_deprecated_arg_return_new_arg, pyTruthy]

/-- Claim C3 as amended: with `new = None`, a truthy `X` is returned with exactly
one deprecation notice, while a falsy `X` yields `None` with no notice. -/
theorem old_only_resolution_characterization
    (X : PyVal) (dn nn v : String) (sl : Nat) :
    warn_about_deprecated_arg_return_new_arg X PyVal.none dn nn v sl
      = if pyTruthy X then
          (Except.ok X, [⟨argRenameMsg dn nn v, "PTBDeprecationWarning", sl⟩])
        else (Except.ok PyVal.none, []) := by
  cases hX : pyTruthy X <;>
    simp [warn_about_deprecated_arg_return_new_arg, pyTruthy_none, hX]

/-- Claim C4: for every falsy `deprecated_arg` and every `new_arg`, the call
returns `new_arg`, emits no warning and raises no error. -/
theorem falsy_deprecated_returns_new
    (d n : PyVal) (dn nn v : String) (sl : Nat) (h : pyTruthy d = false) :
    warn_about_deprecated_arg_return_new_arg d n dn nn v sl
      = (Except.ok n, []) := by
  simp [warn_about_deprecated_arg_return_new_arg, h]

/-- Witness for C4: deprecated `0` (falsy) with new `"b.jpg"` returns
`"b.jpg"` with no warning. -/
theorem falsy_deprecated_returns_new_witness :
    warn_about_deprecated_arg_return_new_arg (PyVal.vInt 0) (PyVal.vStr "b.jpg")
        "thumb" "thumbnail" "6.6" 3
      = (Except.ok (PyVal.vStr "b.jpg"), []) :=
  falsy_deprecated_returns_new (PyVal.vInt 0) (PyVal.vStr "b.jpg")
    "thumb" "thumbnail" "6.6" 3 (by decide)

/-- Claim C5: for every `X` passed as both arguments, the call returns `X`,
raises no conflict error, and emits a deprecation warning if and only if
`X` is truthy. -/
theorem equal_values_return_without_conflict
    (X : PyVal) (dn nn v : String) (sl : Nat) :
    warn_about_deprecated_arg_return_new_arg X X dn nn v sl
      = (Except.ok X,
         if pyTruthy X then
           [⟨argRenameMsg dn nn v, "PTBDeprecationWarning", sl⟩]
         else []) := by
  have hEq : pyEq X X = true := by cases X <;> simp [pyEq]
  cases hX : pyTruthy X <;>
    simp [warn_about_deprecated_arg_return_new_arg, hEq, hX]

/-- Auxiliary: a filterMap whose function is a guarded `some` is the map
over the filtered list. -/
theorem filterMap_guard_eq_map_filter {α β : Type} (p : α → Bool) (f : α → β)
    (l : List α) :
    l.filterMap (fun a => if p a then some (f a) else none)
      = (l.filter p).map f := by
  induction l with
  | nil => rfl
  | cons a t ih =>
    by_cases h : p a = true <;>
      simp [List.filterMap_cons, List.filter_cons, h, ih]

/-- Claim C6: a call to a function wrapped by the decorator forwards all
positional and keyword arguments verbatim to the underlying function,
passes its return value through unmodified, and emits exactly one
deprecation notice per (deprecated, new) pair whose deprecated name
appears among the keyword arguments, in pair order. -/
theorem wrapped_call_forwards_and_warns_once_per_match
    (dns nns : List String) (v : String)
    (func : List PyVal → List (String × PyVal) → PyVal)
    (args : List PyVal) (kwargs : List (String × PyVal)) :
    warn_about_required_renamed_param_passed_as_kwarg dns nns v func args kwargs
      = (func args kwargs,
         ((dns.zip nns).filter
             (fun p => kwargs.any (fun kv => kv.1 == p.1))).map
           (fun p => ⟨kwargRenameMsg p.1 p.2 v, "PTBDeprecationWarning", 3⟩)) := by
  unfold warn_about_required_renamed_param_passed_as_kwarg
  rw [filterMap_guard_eq_map_filter]

/-- Auxiliary: `zip` only consumes the first `min` elements of either
list, so both lists may be truncated to the other's length first. -/
theorem zip_eq_zip_take {α β : Type} (l1 : List α) (l2 : List β) :
    l1.zip l2 = (l1.take l2.length).zip (l2.take l1.length) := by
  induction l1 generalizing l2 with
  | nil => simp
  | cons a t ih =>
    cases l2 with
    | nil => rfl
    | cons b t2 => simp [ih t2]

/-- Claim C7: pairing of deprecated and new names is positional, and names
beyond the length of the shorter sequence are silently skipped: the call
behaves exactly as if both name lists were truncated to the shorter
length, so the extra names never warn and never affect the forwarded
call. -/
theorem unequal_length_name_lists_truncated
    (dns nns : List String) (v : String)
    (func : List PyVal → List (String × PyVal) → PyVal)
    (args : List PyVal) (kwargs : List (String × PyVal)) :
    warn_about_required_renamed_param_passed_as_kwarg dns nns v func args kwargs
      = warn_about_required_renamed_param_passed_as_kwarg
          (dns.take nns.length) (nns.take dns.length) v func args kwargs := by
  unfold warn_about_required_renamed_param_passed_as_kwarg
  rw [zip_eq_zip_take dns nns]

/-- Claim C8: every call to `warn_about_deprecated_attr_in_property` emits
exactly one deprecation notice whose message contains the old name, the
new name and the version, returns nothing, and never raises. -/
theorem attr_notice_always_exactly_one_warning
    (dn nn v : String) (sl : Nat) :
    warn_about_deprecated_attr_in_property dn nn v sl
      = ((), [⟨attrRenameMsg dn nn v, "PTBDeprecationWarning", sl⟩])
    ∧ strContains (attrRenameMsg dn nn v) dn
    ∧ strContains (attrRenameMsg dn nn v) nn
    ∧ strContains (attrRenameMsg dn nn v) v :=
  ⟨rfl, attrRenameMsg_contains_deprecated dn nn v,
    attrRenameMsg_contains_new dn nn v, attrRenameMsg_contains_version dn nn v⟩

/-- Claim C9: `warn_about_thumb_return_thumbnail` is observably identical to
`warn_about_deprecated_arg_return_new_arg` applied to the same two
values with names `thumb` / `thumbnail` and version `6.6`. -/
theorem thumb_return_thumbnail_is_partial_application
    (d n : PyVal) (sl : Nat) :
    warn_about_thumb_return_thumbnail d n sl
      = warn_about_deprecated_arg_return_new_arg d n
          "thumb" "thumbnail" "6.6" sl := rfl

/-- Claim C10: whenever `warn_about_deprecated_arg_return_new_arg` raises the
conflict error, zero deprecation notices are emitted during that call:
the conflict check precedes warning emission. -/
theorem conflict_error_emits_no_warnings
    (d n : PyVal) (dn nn v : String) (sl : Nat) (m : String)
    (h : (warn_about_deprecated_arg_return_new_arg d n dn nn v sl).1
      = Except.error m) :
    (warn_about_deprecated_arg_return_new_arg d n dn nn v sl).2 = [] := by
  cases hd : pyTruthy d <;> cases hn : pyTruthy n <;> cases he : pyEq d n <;>
    simp_all [warn_about_deprecated_arg_return_new_arg]

/-- Witness for C10 at concrete inputs: the conflicting call with
distinct truthy strings emits no warnings. -/
theorem conflict_error_emits_no_warnings_witness :
    (warn_about_deprecated_arg_return_new_arg (PyVal.vStr "a.jpg")
        (PyVal.vStr "b.jpg") "thumb" "thumbnail" "6.6" 3).2 = [] :=
  conflict_error_emits_no_warnings (PyVal.vStr "a.jpg") (PyVal.vStr "b.jpg")
    "thumb" "thumbnail" "6.6" 3 (conflictMsg "thumb" "thumbnail" "6.6") rfl
